import Mathlib

/-!
Shallow embedding of the ORM binding layer in include/ulib/orm/orm.h
(classes UOrmSession, UOrmStatement, UOrmTypeHandler_Base and the
UOrmTypeHandler template specializations).

The layer is pure dispatch: every handler operation forwards to one of the
statement's bind primitives, which in turn forward to the driver. We model a
statement by the ordered trace of driver bind primitives it has invoked, a
handler by the data of the specialization that wraps the caller's variable,
and the process-terminating U_ERROR calls in the bindResult paths by an
Except error. Floating-point payloads are carried opaquely (as raw Nat
payloads): no operation in this header inspects them, each is only forwarded
to the matching driver primitive.
-/

namespace ULibOrm

/-- Scalar value carried by a UOrmTypeHandler specialization whose bindParam
and bindResult both forward to a matching UOrmStatement overload: bool, char,
unsigned char, short, unsigned short, int, unsigned int, long, unsigned long,
long long, unsigned long long, float, double, long double, UString
(orm.h lines 1208-1481 and 1526-1543). Floating payloads are opaque bit
patterns; text payload is the string contents. -/
inductive Scalar where
  | sBool (b : Bool)
  | sChar (c : Nat)
  | sUChar (c : Nat)
  | sShort (i : Int)
  | sUShort (n : Nat)
  | sInt (i : Int)
  | sUInt (n : Nat)
  | sLong (i : Int)
  | sULong (n : Nat)
  | sLongLong (i : Int)
  | sULongLong (n : Nat)
  | sFloat (bits : Nat)
  | sDouble (bits : Nat)
  | sLongDouble (bits : Nat)
  | sUString (s : String)
  deriving DecidableEq

/-- One invocation of a driver-facing bind primitive of UOrmStatement:
the zero-argument bindParam() used for SQL NULL (line 323), the per-scalar
bindParam overloads, bindParam(const char*) (line 336),
bindParam(UStringRep&) (line 347), bindParam(istream&) (line 332),
bindParam(struct tm&) (line 335), and the per-scalar bindResult overloads
(lines 435-450). The statement declares no bindResult overload for
const char*, UStringRep, istream or struct tm. -/
inductive DrvCall where
  | paramNull
  | paramScalar (v : Scalar)
  | paramCharPtr (s : String)
  | paramStringRep (s : String)
  | paramIStream (id : Nat)
  | paramTm (t : Nat)
  | resultScalar (v : Scalar)
  deriving DecidableEq

/-- State of a prepared UOrmStatement, abstracted to the ordered trace of
driver bind primitives invoked on it so far: every bind member of
UOrmStatement forwards to the driver at the next positional slot, so the
visible effect of the header layer is exactly this sequence. -/
structure USqlStmtState where
  calls : List DrvCall
  deriving DecidableEq

/-- Appends one driver primitive invocation to the statement's trace; this is
what each UOrmStatement bind overload does (forward to the driver at the next
positional slot). -/
def USqlStmtState.push (st : USqlStmtState) (c : DrvCall) : USqlStmtState :=
  ⟨st.calls ++ [c]⟩

/-- Process-terminating failures reachable in this header: the
U_INTERNAL_ASSERT_POINTER(pval) in the UOrmTypeHandler_Base constructor
(line 109), and the two U_ERROR calls in bindResult of
UOrmTypeHandler of UStringRep (line 1522) and of UVector of UString
(line 1626). -/
inductive UsageError where
  | assertNullPointer
  | bindResultUStringRep
  | bindResultUVectorUString
  deriving DecidableEq

/-- A constructed UOrmTypeHandler specialization together with the data it
wraps. hNull is UOrmTypeHandler of the null sentinel (line 1191): it wraps
nothing. hScalar covers the specializations whose bindParam and bindResult
both forward to a statement overload. hCharPtr is the const char*
specialization (line 1483), hStringRep the UStringRep one (line 1507),
hIStream the istream one (line 1546, stream identity kept opaque), hTm the
struct tm one (line 1564, payload opaque). hVec is the container
specialization UOrmTypeHandler of UVector of T pointers (line 1583) with a
scalar element type T, holding the elements in vector order; hVecUString is
the UVector of UString specialization (line 1614), which derives from the
UVector of UStringRep pointers instance. -/
inductive Handler where
  | hNull
  | hScalar (v : Scalar)
  | hCharPtr (s : String)
  | hStringRep (s : String)
  | hIStream (id : Nat)
  | hTm (t : Nat)
  | hVec (es : List Scalar)
  | hVecUString (es : List String)
  deriving DecidableEq

/-- Dispatch of handler.bindParam(stmt), one equation per source
specialization:
hNull invokes the zero-argument stmt->bindParam() (line 1199);
hScalar forwards the wrapped value to the matching overload;
hCharPtr forwards the pointer to bindParam(const char*) (line 1498);
hStringRep forwards to bindParam(UStringRep&) (line 1515);
hIStream forwards to bindParam(istream&) (line 1554);
hTm forwards to bindParam(struct tm&) (line 1572);
hVec walks the vector front to back and calls
stmt->bindParam(UOrmTypeHandler of T (elem)) per element (line 1598), which
for a scalar T is the forwarding push of that element;
hVecUString delegates to the UVector of UStringRep pointers base (line 1620),
whose per-element handler forwards each element to bindParam(UStringRep&).
No bindParam path raises an error, so the result is a plain state. -/
def bindParamH : Handler → USqlStmtState → USqlStmtState
  | .hNull, st => st.push .paramNull
  | .hScalar v, st => st.push (.paramScalar v)
  | .hCharPtr s, st => st.push (.paramCharPtr s)
  | .hStringRep s, st => st.push (.paramStringRep s)
  | .hIStream i, st => st.push (.paramIStream i)
  | .hTm t, st => st.push (.paramTm t)
  | .hVec es, st => es.foldl (fun acc v => acc.push (.paramScalar v)) st
  | .hVecUString es, st => es.foldl (fun acc s => acc.push (.paramStringRep s)) st

/-- Dispatch of handler.bindResult(stmt), one equation per source
specialization:
hNull's body is only the trace macro, a no-op (lines 1202-1205);
hScalar forwards the wrapped variable to the matching bindResult overload;
hCharPtr's body is only the trace macro, a no-op (lines 1501-1504);
hStringRep raises U_ERROR, which terminates the process (line 1522);
hIStream's body is only the trace macro, a no-op (lines 1557-1560);
hTm's body is only the trace macro, a no-op (lines 1575-1578);
hVec walks the vector front to back and calls
stmt->bindResult(UOrmTypeHandler of T (elem)) per element (line 1610);
hVecUString raises U_ERROR, which terminates the process (line 1626). -/
def bindResultH : Handler → USqlStmtState → Except UsageError USqlStmtState
  | .hNull, st => .ok st
  | .hScalar v, st => .ok (st.push (.resultScalar v))
  | .hCharPtr _, st => .ok st
  | .hStringRep _, _ => .error .bindResultUStringRep
  | .hIStream _, st => .ok st
  | .hTm _, st => .ok st
  | .hVec es, st => .ok (es.foldl (fun acc v => acc.push (.resultScalar v)) st)
  | .hVecUString _, _ => .error .bindResultUVectorUString

/-- UOrmStatement::use (line 258 as a C++17 comma-fold, lines 484-832 as the
arity 1..20 overloads): binds the argument list left to right, each argument
through bindParam(UOrmTypeHandler of Ti (ai)). -/
def use : USqlStmtState → List Handler → USqlStmtState
  | st, [] => st
  | st, h :: hs => use (bindParamH h st) hs

/-- UOrmStatement::into (line 370 as a C++17 comma-fold, lines 838-1186 as
the arity 1..20 overloads): registers the argument list left to right, each
argument through bindResult(UOrmTypeHandler of Ti (ai)); a U_ERROR raised by
one argument terminates the process, so later arguments are not reached. -/
def into : USqlStmtState → List Handler → Except UsageError USqlStmtState
  | st, [] => .ok st
  | st, h :: hs =>
      match bindResultH h st with
      | .ok st2 => into st2 hs
      | .error e => .error e

/-- Reference sequence written from the spec's words for the use equivalence:
calling bindParam(UOrmTypeHandler of Ti (ai)) manually once per argument, in
left-to-right order. -/
def manualBindParamSeq (st : USqlStmtState) (hs : List Handler) : USqlStmtState :=
  hs.foldl (fun acc h => bindParamH h acc) st

/-- Reference sequence written from the spec's words for the into
equivalence: calling bindResult(UOrmTypeHandler of Ti (ai)) manually once per
argument in left-to-right order; once a call has terminated the process the
later calls never run. -/
def manualBindResultSeq (st : USqlStmtState) (hs : List Handler) :
    Except UsageError USqlStmtState :=
  hs.foldl (fun acc h => acc.bind (fun s => bindResultH h s)) (.ok st)

/-- Constructor of UOrmTypeHandler_Base (lines 105-110): stores the incoming
pointer in pval and then checks U_INTERNAL_ASSERT_POINTER(pval), which fails
fast when the pointer is null. A pointer is modelled as an optional address,
none being U_NULLPTR. -/
def mkBase (ptr : Option Nat) : Except UsageError (Option Nat) :=
  if ptr.isSome then .ok ptr else .error .assertNullPointer

/-- Constructor of the null-sentinel specialization UOrmTypeHandler of null
(line 1193): it ignores the referent and passes U_NULLPTR to the base
constructor. -/
def mkNullHandler : Except UsageError (Option Nat) :=
  mkBase none

/-- Constructor of every non-sentinel handler built from a reference
(UOrmTypeHandler(T& val) passes the address of val, lines 168-169 and the
specializations): the address of a C++ reference is non-null. -/
def mkHandlerOfRef (addr : Nat) : Except UsageError (Option Nat) :=
  mkBase (some addr)

end ULibOrm

namespace ULibOrm

/-- Outcome of constructing a UOrmSession: either the process was terminated
by loadDriverFail (declared noreturn at line 89), or a session holding the
loaded driver and its option string is ready. -/
inductive SessionOutcome where
  | terminated
  | ready (driver : Nat) (option : String)
  deriving DecidableEq

/-- Modelled from the spec: the body of UOrmSession::loadDriver is in
orm.cpp, which is not among the sources; the header only declares it
(line 86) together with the noreturn helper loadDriverFail (line 89) that
both constructors reach through loadDriver. Per the spec, construction loads
the named driver implementation from the available-driver table and, when the
name cannot be loaded, fails fatally (process-terminating). -/
def UOrmSession.construct (drivers : String → Option Nat) (backend : String)
    (opt : String) : SessionOutcome :=
  match drivers backend with
  | none => .terminated
  | some d => .ready d opt

/-- A one-shot UOrmSession::query can only be issued on a session object that
exists, that is, on a ready outcome; a terminated process issues nothing. -/
def canIssueQuery : SessionOutcome → Bool
  | .terminated => false
  | .ready _ _ => true

/-- State of a statement's result cursor, modelled from the spec for the
nextRow claims: the body of UOrmStatement::nextRow is in orm.cpp, not among
the sources (the header declares it at line 249 with the comment that it
moves forward to the next row and returns false if no more rows are
available). pending holds the rows the driver has not yet delivered, outputs
holds the current contents of the bound into-target variables (the values
materialized from the most recently fetched row). -/
structure FetchState where
  pending : List (List Scalar)
  outputs : List Scalar
  deriving DecidableEq

/-- Modelled from the spec: nextRow advances to the next result row and
materializes the bound into targets from it, returning true; once rows are
exhausted it returns false and performs no further mutation. -/
def nextRow : FetchState → Bool × FetchState
  | ⟨[], outs⟩ => (false, ⟨[], outs⟩)
  | ⟨r :: rs, _⟩ => (true, ⟨rs, r⟩)

/-- Iterates nextRow k times, keeping only the final state. -/
def nextRowIter : Nat → FetchState → FetchState
  | 0, st => st
  | k + 1, st => nextRowIter k (nextRow st).2

/-- Handle-ownership view of the public interfaces of UOrmSession and
UOrmStatement: the live driver-connection handles (one owned per session) and
the live driver-statement handles (one owned per statement). -/
structure OwnershipState where
  sessionHandles : List Nat
  stmtHandles : List Nat
  deriving DecidableEq

/-- The public operations of UOrmSession and UOrmStatement as declared in the
header. Copy construction and copy assignment are absent for both classes:
U_DISALLOW_COPY_AND_ASSIGN(UOrmSession) at line 91 and
U_DISALLOW_COPY_AND_ASSIGN(UOrmStatement) at line 478 delete them, so no
public operation duplicates a handle. sessionCreate and stmtCreate carry the
handle the driver allocates for the new object; the destructors release the
object's handle; every remaining operation touches no handle ownership. -/
inductive PublicOp where
  | sessionCreate (h : Nat)
  | sessionDestroy (h : Nat)
  | stmtCreate (h : Nat)
  | stmtDestroy (h : Nat)
  | sessionIsReady
  | sessionGetConnection
  | sessionConnect
  | sessionQuery
  | sessionAffected
  | sessionLastInsertRowid
  | stmtExecute
  | stmtAsyncPipeline
  | stmtAffected
  | stmtLastInsertRowid
  | stmtCols
  | stmtNextRow
  | stmtReset
  | stmtBindParam
  | stmtBindResult
  | stmtUse
  | stmtInto
  deriving DecidableEq

/-- Effect of one public operation on handle ownership: creation adds the
driver-allocated handle with its single owner, destruction releases it, and
every other operation leaves ownership untouched. -/
def stepOp : OwnershipState → PublicOp → OwnershipState
  | st, .sessionCreate h => ⟨h :: st.sessionHandles, st.stmtHandles⟩
  | st, .sessionDestroy h => ⟨st.sessionHandles.erase h, st.stmtHandles⟩
  | st, .stmtCreate h => ⟨st.sessionHandles, h :: st.stmtHandles⟩
  | st, .stmtDestroy h => ⟨st.sessionHandles, st.stmtHandles.erase h⟩
  | st, _ => st

/-- Every live handle has exactly one owner: no connection handle and no
statement handle appears twice in the ownership lists. -/
def uniqueOwnership (st : OwnershipState) : Prop :=
  st.sessionHandles.Nodup ∧ st.stmtHandles.Nodup

instance (st : OwnershipState) : Decidable (uniqueOwnership st) := by
  unfold uniqueOwnership; infer_instance

/-- A creation operation installs a handle the driver has freshly allocated,
so the handle is not already live; other operations carry no freshness
obligation. -/
def freshFor (st : OwnershipState) : PublicOp → Prop
  | .sessionCreate h => h ∉ st.sessionHandles
  | .stmtCreate h => h ∉ st.stmtHandles
  | _ => True

instance (st : OwnershipState) (op : PublicOp) : Decidable (freshFor st op) := by
  cases op <;> (unfold freshFor; infer_instance)

end ULibOrm

namespace ULibOrm

/-! Helper lemmas shared by the development. -/

/-- Unfolding of use as a left fold of bindParamH over the argument list. -/
lemma use_eq_foldl_aux : ∀ (hs : List Handler) (st : USqlStmtState),
    use st hs = manualBindParamSeq st hs := by
  intro hs
  induction hs with
  | nil => intro st; rfl
  | cons h hs ih =>
      intro st
      simp only [use, manualBindParamSeq, List.foldl_cons]
      exact ih (bindParamH h st)

/-- A manual bindResult sequence that has already terminated the process stays
terminated: folding further calls over an error is that error. -/
lemma manual_bindResult_error_aux : ∀ (hs : List Handler) (e : UsageError),
    List.foldl (fun acc h => acc.bind (fun s => bindResultH h s))
      (Except.error e : Except UsageError USqlStmtState) hs = Except.error e := by
  intro hs
  induction hs with
  | nil => intro e; rfl
  | cons h hs ih => intro e; exact ih e

/-- Unfolding of into as a left fold of bindResultH over the argument list. -/
lemma into_eq_foldl_aux : ∀ (hs : List Handler) (st : USqlStmtState),
    into st hs = manualBindResultSeq st hs := by
  intro hs
  induction hs with
  | nil => intro st; rfl
  | cons h hs ih =>
      intro st
      have hmanual : manualBindResultSeq st (h :: hs)
          = List.foldl (fun acc h => acc.bind (fun s => bindResultH h s))
              (bindResultH h st) hs := rfl
      rw [hmanual]
      cases hres : bindResultH h st with
      | ok st2 =>
          simp only [into, hres]
          exact ih st2
      | error e =>
          simp only [into, hres]
          exact (manual_bindResult_error_aux hs e).symm

/-- Folding error-free per-element result pushes through Except.bind is the
plain fold of the pushes. -/
lemma foldl_except_ok_aux (f : USqlStmtState → Scalar → USqlStmtState) :
    ∀ (es : List Scalar) (st : USqlStmtState),
    List.foldl (fun acc v => acc.bind (fun s => Except.ok (f s v)))
      (Except.ok st : Except UsageError USqlStmtState) es
      = Except.ok (es.foldl f st) := by
  intro es
  induction es with
  | nil => intro st; rfl
  | cons v es ih =>
      intro st
      exact ih (f st v)

end ULibOrm

namespace ULibOrm

/-- Claim C1 (counterexample): on the immutable-text specialization
UOrmTypeHandler of const char* (orm.h lines 1501-1504), bindResult completes
silently: at the concrete input below it returns successfully, invokes no
result-binding primitive (the trace stays empty) and raises no usage error,
refuting the claim that every text-reference adapter fails bindResult with a
usage error. -/
theorem charPtr_bindResult_silent_cex :
    bindResultH (Handler.hCharPtr "name") ⟨[]⟩ = Except.ok ⟨[]⟩ := rfl

/-- Claim C1 (amended): bindResult on UOrmTypeHandler of UStringRep and on
UOrmTypeHandler of UVector of UString fails with a usage error
(process-terminating U_ERROR) and never silently succeeds, while bindResult
on UOrmTypeHandler of const char* is a silent no-op: it performs no result
binding and signals no error. -/
theorem textRef_bindResult_amended :
    ∀ (st : USqlStmtState) (s r : String) (es : List String),
    bindResultH (Handler.hStringRep r) st
        = Except.error UsageError.bindResultUStringRep ∧
    bindResultH (Handler.hVecUString es) st
        = Except.error UsageError.bindResultUVectorUString ∧
    bindResultH (Handler.hCharPtr s) st = Except.ok st := by
  intro st s r es
  exact ⟨rfl, rfl, rfl⟩

/-- Claim C2: constructing a UOrmTypeHandler over a null pointer trips the
base-class assertion U_INTERNAL_ASSERT_POINTER(pval), and a handler built
over a genuine reference succeeds; but the NULL-sentinel specialization
UOrmTypeHandler of null passes U_NULLPTR to that same base constructor
(orm.h line 1193 into lines 105-110), so with assertions enabled its
construction assert-fails instead of succeeding as the claim requires: the
code contradicts the designed-in exemption for the sentinel. -/
theorem nullHandler_ctor_asserts :
    mkNullHandler = Except.error UsageError.assertNullPointer ∧
    ∀ a : Nat, mkHandlerOfRef a = Except.ok (some a) := by
  exact ⟨rfl, fun a => rfl⟩

/-- Claim C3: for every argument list of length between 1 and 20,
UOrmStatement::use performs exactly the same sequence of underlying bindParam
calls, in the same left-to-right order, as calling
bindParam(UOrmTypeHandler of Ti (ai)) manually once per argument in order. -/
theorem use_eq_manual_bindParam :
    ∀ (st : USqlStmtState) (hs : List Handler),
    1 ≤ hs.length → hs.length ≤ 20 →
    use st hs = manualBindParamSeq st hs := by
  intro st hs _ _
  exact use_eq_foldl_aux hs st

/-- Claim C3 witness: a concrete three-argument use call equals the manual
bindParam sequence. -/
theorem use_eq_manual_bindParam_witness :
    use ⟨[]⟩ [Handler.hScalar (Scalar.sInt 42), Handler.hCharPtr "hello",
        Handler.hNull]
      = manualBindParamSeq ⟨[]⟩ [Handler.hScalar (Scalar.sInt 42),
        Handler.hCharPtr "hello", Handler.hNull] :=
  use_eq_manual_bindParam ⟨[]⟩
    [Handler.hScalar (Scalar.sInt 42), Handler.hCharPtr "hello", Handler.hNull]
    (by decide) (by decide)

/-- Claim C4: for every argument list of length between 1 and 20,
UOrmStatement::into performs exactly the same sequence of underlying
bindResult calls, in the same left-to-right order, as calling
bindResult(UOrmTypeHandler of Ti (ai)) manually once per argument in order
(a process-terminating usage error in either form stops the sequence at the
same argument). -/
theorem into_eq_manual_bindResult :
    ∀ (st : USqlStmtState) (hs : List Handler),
    1 ≤ hs.length → hs.length ≤ 20 →
    into st hs = manualBindResultSeq st hs := by
  intro st hs _ _
  exact into_eq_foldl_aux hs st

/-- Claim C4 witness: a concrete three-argument into call, whose second
argument raises the UStringRep usage error, equals the manual bindResult
sequence. -/
theorem into_eq_manual_bindResult_witness :
    into ⟨[]⟩ [Handler.hScalar (Scalar.sBool true), Handler.hStringRep "x",
        Handler.hScalar (Scalar.sInt 1)]
      = manualBindResultSeq ⟨[]⟩ [Handler.hScalar (Scalar.sBool true),
        Handler.hStringRep "x", Handler.hScalar (Scalar.sInt 1)] :=
  into_eq_manual_bindResult ⟨[]⟩
    [Handler.hScalar (Scalar.sBool true), Handler.hStringRep "x",
      Handler.hScalar (Scalar.sInt 1)]
    (by decide) (by decide)

/-- Claim C5 (counterexample): the sequence-of-values adapter
UOrmTypeHandler of UVector of UString does not delegate bindResult
element-by-element: at the concrete one-element vector below, bindResult
raises the process-terminating usage error of orm.h line 1626 instead of
performing any per-element result binding. -/
theorem vecUString_bindResult_error_cex :
    bindResultH (Handler.hVecUString ["a"]) ⟨[]⟩
      = Except.error UsageError.bindResultUVectorUString := rfl

/-- Claim C5 (amended): the generic vector adapter UOrmTypeHandler of
UVector of T pointers binds the elements in order, first to last, for both
bindParam and bindResult, delegating once per element to the scalar adapter
for T; the UVector of UString specialization delegates bindParam the same
way (each element bound through the UStringRep adapter of its base), but its
bindResult fails with a usage error instead of delegating. -/
theorem vector_adapter_bind_amended :
    ∀ (st : USqlStmtState) (es : List Scalar) (ss : List String),
    bindParamH (Handler.hVec es) st
        = manualBindParamSeq st (es.map Handler.hScalar) ∧
    bindResultH (Handler.hVec es) st
        = manualBindResultSeq st (es.map Handler.hScalar) ∧
    bindParamH (Handler.hVecUString ss) st
        = manualBindParamSeq st (ss.map Handler.hStringRep) ∧
    bindResultH (Handler.hVecUString ss) st
        = Except.error UsageError.bindResultUVectorUString := by
  intro st es ss
  refine ⟨?_, ?_, ?_, rfl⟩
  · simp only [bindParamH, manualBindParamSeq, List.foldl_map]
  · simp only [bindResultH, manualBindResultSeq, List.foldl_map]
    exact (foldl_except_ok_aux (fun s v => s.push (.resultScalar v)) es st).symm
  · simp only [bindParamH, manualBindParamSeq, List.foldl_map]

/-- Claim C6: the NULL-sentinel adapter UOrmTypeHandler of null binds a SQL
NULL at the next positional slot by invoking the statement's zero-argument
bindParam() primitive (orm.h line 1199), and it reads no wrapped value: the
hNull handler carries no referent at all (its constructor stores U_NULLPTR),
and the appended driver call carries no value. -/
theorem nullHandler_bindParam_bindsNull :
    ∀ st : USqlStmtState,
    bindParamH Handler.hNull st = st.push DrvCall.paramNull ∧
    (bindParamH Handler.hNull st).calls = st.calls ++ [DrvCall.paramNull] := by
  intro st
  exact ⟨rfl, rfl⟩

/-- Claim C7: for every driver table in which the requested backend name
cannot be loaded, constructing a UOrmSession terminates the process (the
loadDriverFail path, declared noreturn), so the outcome is not a ready
session and no query can ever be issued on it. -/
theorem session_unloadable_driver_terminates :
    ∀ (drivers : String → Option Nat) (backend opt : String),
    drivers backend = none →
    UOrmSession.construct drivers backend opt = SessionOutcome.terminated ∧
    canIssueQuery (UOrmSession.construct drivers backend opt) = false := by
  intro d b o h
  unfold UOrmSession.construct
  rw [h]
  exact ⟨rfl, rfl⟩

/-- Claim C7 witness: with an empty driver table, constructing a session for
the backend name mysql terminates before any query can be issued. -/
theorem session_unloadable_driver_terminates_witness :
    UOrmSession.construct (fun _ => none) "mysql" "host=x"
        = SessionOutcome.terminated ∧
    canIssueQuery (UOrmSession.construct (fun _ => none) "mysql" "host=x")
        = false :=
  session_unloadable_driver_terminates (fun _ => none) "mysql" "host=x" rfl

/-- Claim C8: no operation of the public interfaces of UOrmSession and
UOrmStatement duplicates a driver-connection or driver-statement handle
(copy construction and copy assignment are deleted by
U_DISALLOW_COPY_AND_ASSIGN for both classes, so PublicOp has no copy
operation), hence single ownership of every handle is preserved by every
public operation, given that creation installs a freshly allocated handle. -/
theorem handle_single_owner_preserved :
    ∀ (st : OwnershipState) (op : PublicOp),
    uniqueOwnership st → freshFor st op → uniqueOwnership (stepOp st op) := by
  intro st op h1 h2
  obtain ⟨hs, ht⟩ := h1
  cases op <;> try exact ⟨hs, ht⟩
  case sessionCreate h => exact ⟨List.nodup_cons.mpr ⟨h2, hs⟩, ht⟩
  case sessionDestroy h => exact ⟨hs.sublist (List.erase_sublist h _), ht⟩
  case stmtCreate h => exact ⟨hs, List.nodup_cons.mpr ⟨h2, ht⟩⟩
  case stmtDestroy h => exact ⟨hs, ht.sublist (List.erase_sublist h _)⟩

/-- Claim C8 witness: creating a session with the fresh connection handle 0
on a state already owning connection handle 1 and statement handle 2
preserves single ownership. -/
theorem handle_single_owner_preserved_witness :
    uniqueOwnership ⟨[1], [2]⟩ ∧
    freshFor ⟨[1], [2]⟩ (PublicOp.sessionCreate 0) ∧
    uniqueOwnership (stepOp ⟨[1], [2]⟩ (PublicOp.sessionCreate 0)) :=
  ⟨by decide, by decide,
    handle_single_owner_preserved ⟨[1], [2]⟩ (PublicOp.sessionCreate 0)
      (by decide) (by decide)⟩

/-- Claim C9: on a statement whose result set is exhausted, nextRow returns
false, and any number of further nextRow calls leaves the fetch state, in
particular the bound output variables with the values of the last fetched
row, completely unchanged. -/
theorem nextRow_exhausted_frame :
    ∀ st : FetchState, st.pending = [] →
    (nextRow st).1 = false ∧ ∀ k : Nat, nextRowIter k st = st := by
  intro st h
  obtain ⟨p, outs⟩ := st
  change p = [] at h
  subst h
  refine ⟨rfl, ?_⟩
  intro k
  induction k with
  | zero => rfl
  | succ k ih => exact ih

/-- Claim C9 witness: on a concrete exhausted statement whose outputs hold
the last fetched value, nextRow returns false and five further calls change
nothing. -/
theorem nextRow_exhausted_frame_witness :
    (nextRow ⟨[], [Scalar.sInt 7]⟩).1 = false ∧
    nextRowIter 5 ⟨[], [Scalar.sInt 7]⟩ = ⟨[], [Scalar.sInt 7]⟩ :=
  ⟨(nextRow_exhausted_frame ⟨[], [Scalar.sInt 7]⟩ rfl).1,
    (nextRow_exhausted_frame ⟨[], [Scalar.sInt 7]⟩ rfl).2 5⟩

/-- Claim C10: bindResult on the adapter specializations for istream, for
struct tm, and for the NULL sentinel is a silent no-op: it invokes no
statement result-binding primitive, raises no error, and leaves the
statement trace (and hence every bound variable) unchanged, unlike the
UStringRep and UVector of UString specializations, whose bindResult fails
with a process-terminating usage error. -/
theorem bindResult_noop_istream_tm_null :
    ∀ (st : USqlStmtState) (i t : Nat) (r : String) (ss : List String),
    bindResultH (Handler.hIStream i) st = Except.ok st ∧
    bindResultH (Handler.hTm t) st = Except.ok st ∧
    bindResultH Handler.hNull st = Except.ok st ∧
    bindResultH (Handler.hStringRep r) st
        = Except.error UsageError.bindResultUStringRep ∧
    bindResultH (Handler.hVecUString ss) st
        = Except.error UsageError.bindResultUVectorUString := by
  intro st i t r ss
  exact ⟨rfl, rfl, rfl, rfl, rfl⟩

end ULibOrm
